import Mathlib

/-!
Verification of the `hintents` Soroban transaction simulator driver
(`src/simulator/src/main.rs`).

The driver is embedded shallowly as a pure function `run` from a request
(plus an oracle `Env` of external collaborators: base64 decoding, XDR
parsing, the opaque execution host, the flamegraph renderer, the
filesystem) to a `RunTrace` recording the single JSON response written to
stdout, the diagnostic stderr lines, whether operation execution was
reached and its outcome, the configured ledger info, and the budget triple
computed by the budget extractor.
-/

namespace Hintents

/-- Raw bytes produced by base64 decoding or file reads. -/
abbrev Bytes := List Nat

/-- One operation of a transaction. `body` stands for the operation body
(only its debug rendering is ever consumed by the driver). -/
structure Operation where
  body : String
deriving DecidableEq, Repr

/-- The claim-relevant part of `xdr::Transaction`: its operation list. -/
structure Transaction where
  operations : List Operation
deriving DecidableEq, Repr

/-- `xdr::TransactionV1Envelope`: wraps a transaction (`tx` field). -/
structure TransactionV1Envelope where
  tx : Transaction
deriving DecidableEq, Repr

/-- The claim-relevant part of `xdr::TransactionV0`: its operation list. -/
structure TransactionV0 where
  operations : List Operation
deriving DecidableEq, Repr

/-- `xdr::TransactionV0Envelope`: wraps a legacy transaction. -/
structure TransactionV0Envelope where
  tx : TransactionV0
deriving DecidableEq, Repr

/-- `xdr::FeeBumpTransactionInnerTx`: the single variant wraps a v1
envelope. -/
inductive FeeBumpTransactionInnerTx where
  | Tx (tx_v1 : TransactionV1Envelope)
deriving DecidableEq, Repr

/-- The claim-relevant part of `xdr::FeeBumpTransaction`: its inner
transaction. -/
structure FeeBumpTransaction where
  inner_tx : FeeBumpTransactionInnerTx
deriving DecidableEq, Repr

/-- `xdr::FeeBumpTransactionEnvelope`. -/
structure FeeBumpTransactionEnvelope where
  tx : FeeBumpTransaction
deriving DecidableEq, Repr

/-- `xdr::TransactionEnvelope`, the three wire variants
(main.rs lines 202-208 match on exactly these). -/
inductive TransactionEnvelope where
  | Tx (tx_v1 : TransactionV1Envelope)
  | TxV0 (tx_v0 : TransactionV0Envelope)
  | TxFeeBump (bump : FeeBumpTransactionEnvelope)
deriving DecidableEq, Repr

/-- Decoded `xdr::LedgerKey` (opaque to the driver: bound to `_key`). -/
structure LedgerKey where
  raw : Bytes
deriving DecidableEq, Repr

/-- Decoded `xdr::LedgerEntry` (opaque to the driver: bound to `_entry`). -/
structure LedgerEntry where
  raw : Bytes
deriving DecidableEq, Repr

/-- `SimulationRequest` (main.rs lines 20-37). `ledger_entries` is a Rust
`HashMap`; it is embedded as an association list whose order models the
map's (unspecified) iteration order. `timestamp` is an `i64`, embedded as
an `Int`; `ledger_sequence` is a `u32`. -/
structure SimulationRequest where
  network : Option String
  envelope_xdr : String
  result_meta_xdr : String
  ledger_entries : Option (List (String × String))
  timestamp : Option Int
  ledger_sequence : Option Nat
  wasm_path : Option String
  mock_args : Option (List String)
  profile : Option Bool
  enable_optimization_advisor : Bool
deriving DecidableEq, Repr

/-- `BudgetUsage` (main.rs lines 52-57). -/
structure BudgetUsage where
  cpu_instructions : Nat
  memory_bytes : Nat
  operations_count : Nat
deriving DecidableEq, Repr

/-- Modelled from the spec: the `gas_optimizer` module is not under `src/`;
per spec section 4.5 the advisor accepts exactly this metrics triple. -/
structure BudgetMetrics where
  cpu_instructions : Nat
  memory_bytes : Nat
  total_operations : Nat
deriving DecidableEq, Repr

/-- Modelled from the spec: the advisor's report is an opaque serializable
value (spec section 4.5); only its presence or absence matters here. -/
structure OptimizationReport where
  raw : String
deriving DecidableEq, Repr

/-- `SimulationResponse` (main.rs lines 39-50). `optimization_report` and
`budget_usage` are omitted from the JSON when `none`
(`skip_serializing_if`). -/
structure SimulationResponse where
  status : String
  error : Option String
  events : List String
  logs : List String
  flamegraph : Option String
  optimization_report : Option OptimizationReport
  budget_usage : Option BudgetUsage
deriving DecidableEq, Repr

/-- The host's ledger info: the three fields the driver mutates
(main.rs lines 146-167). -/
structure LedgerInfo where
  network_id : Bytes
  timestamp : Nat
  sequence_number : Nat
deriving DecidableEq, Repr

/-- Oracle for the external collaborators the driver consumes: the base64
engine, the XDR codec, the SHA-256 digest, the opaque execution host
(its default ledger info, whether executing the operations aborts
abnormally, its post-execution budget counters, its event store, its
debug rendering), the flamegraph renderer, and the filesystem. -/
structure Env where
  base64Decode : String → Except String Bytes
  parseEnvelope : Bytes → Except String TransactionEnvelope
  parseLedgerKey : Bytes → Except String LedgerKey
  parseLedgerEntry : Bytes → Except String LedgerEntry
  sha256 : String → Bytes
  defaultLedgerInfo : LedgerInfo
  enginePanic : List Operation → Option String
  cpuConsumed : List Operation → Option Nat
  memConsumed : List Operation → Option Nat
  getEvents : List Operation → Except String (List String)
  budgetDebug : List Operation → String
  analyze : BudgetMetrics → OptimizationReport
  renderFlamegraph : String → Except String String
  readFile : String → Except String Bytes

/-- The process input as the driver distinguishes it: stdin unreadable,
stdin readable but not valid JSON for `SimulationRequest`, or a parsed
request (main.rs lines 84-117). -/
inductive Input where
  | ioError (e : String)
  | badJson (e : String)
  | request (req : SimulationRequest)

/-- Observable trace of one driver run: the responses printed to stdout
(the contract is that there is exactly one), the diagnostic stderr lines,
the outcome of the fault-guarded operation execution (`none` when
execution was never reached), the ledger info configured on the host, and
the budget triple computed by the budget extractor (`none` when the
extractor never ran). -/
structure RunTrace where
  stdout : List SimulationResponse
  stderrLines : List String
  executed : Option (Except String (List String))
  ledgerInfo : Option LedgerInfo
  budgetTriple : Option BudgetUsage
deriving Repr

/-- `network_passphrase` (main.rs lines 66-73). -/
def network_passphrase (network : String) : Option String :=
  let s := network.toLower
  if s = "public" || s = "mainnet" then
    some "Public Global Stellar Network ; September 2015"
  else if s = "testnet" then
    some "Test SDF Network ; September 2015"
  else if s = "futurenet" then
    some "Test SDF Future Network ; October 2022"
  else
    none

/-- `network_id_from_passphrase` (main.rs lines 75-82): the SHA-256 digest
of the passphrase bytes (digest supplied by the oracle). -/
def network_id_from_passphrase (env : Env) (passphrase : String) : Bytes :=
  env.sha256 passphrase

/-- The Rust cast `ts as u64` on an `i64`: reinterpretation modulo 2^64. -/
def i64AsU64 (t : Int) : Nat :=
  (t % (2 ^ 64 : Int)).toNat

/-- `execute_operations` (main.rs lines 300-310): one log line per
operation, indexed in order. -/
def execute_operations (operations : List Operation) : List String :=
  operations.enum.map
    (fun p => "Processing operation " ++ toString p.1 ++ ": " ++ p.2.body)

/-- `send_error` (main.rs lines 312-323): the error-shaped response. -/
def send_error (msg : String) : SimulationResponse :=
  { status := "error"
    error := some msg
    events := []
    logs := []
    flamegraph := none
    optimization_report := none
    budget_usage := none }

/-- The error response emitted before any host exists (stdin failure, JSON
failure, envelope decode failure): one response on stdout, nothing else. -/
def errTrace (msg : String) : RunTrace :=
  { stdout := [send_error msg]
    stderrLines := []
    executed := none
    ledgerInfo := none
    budgetTriple := none }

/-- Envelope decoding (main.rs lines 125-138): base64 then XDR, each
failure mapped to its message. -/
def decodeEnvelope (env : Env) (envelope_xdr : String) :
    Except String TransactionEnvelope :=
  match env.base64Decode envelope_xdr with
  | .error e => .error ("Failed to decode Envelope Base64: " ++ e)
  | .ok bytes =>
    match env.parseEnvelope bytes with
    | .error e => .error ("Failed to parse Envelope XDR: " ++ e)
    | .ok envelope => .ok envelope

/-- Ledger-info configuration (main.rs lines 141-167): network id from the
passphrase table if the name resolves, then timestamp and sequence
overrides. -/
def configureLedgerInfo (env : Env) (network : Option String)
    (timestamp : Option Int) (ledger_sequence : Option Nat) : LedgerInfo :=
  let li0 := env.defaultLedgerInfo
  let li1 :=
    match network with
    | some n =>
      match network_passphrase n with
      | some p => { li0 with network_id := network_id_from_passphrase env p }
      | none => li0
    | none => li0
  let li2 :=
    match timestamp with
    | some ts => { li1 with timestamp := i64AsU64 ts }
    | none => li1
  match ledger_sequence with
  | some seq => { li2 with sequence_number := seq }
  | none => li2

/-- Decoding of one ledger map pair (main.rs lines 171-194): key base64,
key XDR, entry base64, entry XDR, in that order, each failure mapped to
its message. -/
def decodeLedgerPair (env : Env) (kv : String × String) :
    Except String Unit :=
  match env.base64Decode kv.1 with
  | .error e => .error ("Failed to decode LedgerKey Base64: " ++ e)
  | .ok b =>
    match env.parseLedgerKey b with
    | .error e => .error ("Failed to parse LedgerKey XDR: " ++ e)
    | .ok _ =>
      match env.base64Decode kv.2 with
      | .error e => .error ("Failed to decode LedgerEntry Base64: " ++ e)
      | .ok b2 =>
        match env.parseLedgerEntry b2 with
        | .error e => .error ("Failed to parse LedgerEntry XDR: " ++ e)
        | .ok _ => .ok ()

/-- The ledger preload loop (main.rs lines 169-199): decodes every pair in
iteration order, aborting on the first failure, counting successes. -/
def decodeLedgerEntries (env : Env) :
    List (String × String) → Except String Nat
  | [] => .ok 0
  | kv :: rest =>
    match decodeLedgerPair env kv with
    | .error e => .error e
    | .ok _ =>
      match decodeLedgerEntries env rest with
      | .error e => .error e
      | .ok n => .ok (n + 1)

/-- Operation extraction (main.rs lines 202-208): normalizes the three
envelope variants, unwrapping a fee-bump envelope's inner transaction. -/
def extractOperations : TransactionEnvelope → List Operation
  | .Tx tx_v1 => tx_v1.tx.operations
  | .TxV0 tx_v0 => tx_v0.tx.operations
  | .TxFeeBump bump =>
    match bump.tx.inner_tx with
    | .Tx tx_v1 => tx_v1.tx.operations

/-- The folded sample data fed to the renderer (main.rs line 241). -/
def foldedData (cpu_insns mem_bytes : Nat) : String :=
  "Total;CPU " ++ toString cpu_insns ++ "\nTotal;Memory " ++
    toString mem_bytes ++ "\n"

/-- The response assembled when the fault boundary intercepted an abnormal
engine termination (main.rs lines 277-295). Note its `logs` field carries
one PANIC line — it is not empty. -/
def panicResponse (p : String) : SimulationResponse :=
  { status := "error"
    error := some ("Simulator panicked: " ++ p)
    events := []
    logs := ["PANIC: " ++ p]
    flamegraph := none
    optimization_report := none
    budget_usage := none }

/-- The stage after envelope decoding and host configuration
(main.rs lines 169-297): ledger preload, fault-guarded execution, budget
extraction, optional advisor, optional renderer, response assembly. -/
def afterConfigure (env : Env) (ledger_entries : Option (List (String × String)))
    (profile : Option Bool) (enable_optimization_advisor : Bool)
    (envelope : TransactionEnvelope) (li : LedgerInfo) : RunTrace :=
  match decodeLedgerEntries env (ledger_entries.getD []) with
  | .error msg =>
    { stdout := [send_error msg]
      stderrLines := []
      executed := none
      ledgerInfo := some li
      budgetTriple := none }
  | .ok loaded_entries_count =>
    let operations := extractOperations envelope
    -- catch_unwind(execute_operations): an engine fault becomes `.error`.
    let result : Except String (List String) :=
      match env.enginePanic operations with
      | some p => .error p
      | none => .ok (execute_operations operations)
    let cpu_insns := (env.cpuConsumed operations).getD 0
    let mem_bytes := (env.memConsumed operations).getD 0
    let budget_usage : BudgetUsage :=
      { cpu_instructions := cpu_insns
        memory_bytes := mem_bytes
        operations_count := operations.length }
    let optimization_report : Option OptimizationReport :=
      if enable_optimization_advisor then
        some (env.analyze
          { cpu_instructions := cpu_insns
            memory_bytes := mem_bytes
            total_operations := operations.length })
      else
        none
    let fgPair : Option String × List String :=
      if profile.getD false then
        match env.renderFlamegraph (foldedData cpu_insns mem_bytes) with
        | .error e => (none, ["Failed to generate flamegraph: " ++ e])
        | .ok svg => (some svg, [])
      else
        (none, [])
    match result with
    | .ok exec_logs =>
      let events :=
        match env.getEvents operations with
        | .ok evs => evs
        | .error _ => ["Failed to retrieve events"]
      let final_logs :=
        ["Host Initialized with Budget: " ++ env.budgetDebug operations,
         "Loaded " ++ toString loaded_entries_count ++ " Ledger Entries"] ++
          exec_logs
      { stdout :=
          [{ status := "success"
             error := none
             events := events
             logs := final_logs
             flamegraph := fgPair.1
             optimization_report := optimization_report
             budget_usage := some budget_usage }]
        stderrLines := fgPair.2
        executed := some result
        ledgerInfo := some li
        budgetTriple := some budget_usage }
    | .error p =>
      { stdout := [panicResponse p]
        stderrLines := fgPair.2
        executed := some result
        ledgerInfo := some li
        budgetTriple := some budget_usage }

/-- `run_local_wasm_replay` (main.rs lines 338-403): the degraded local
replay mode. Execution is skipped; the response is success-shaped with no
flamegraph, no report and no budget usage. -/
def run_local_wasm_replay (env : Env) (wasm_path : String)
    (mock_args : Option (List String)) : RunTrace :=
  let banner :=
    ["Local WASM Replay Mode",
     "WASM Path: " ++ wasm_path,
     "WARNING: Using Mock State (not mainnet data)",
     ""]
  match env.readFile wasm_path with
  | .error e =>
    { stdout := [send_error ("Failed to read WASM file: " ++ e)]
      stderrLines := banner
      executed := none
      ledgerInfo := none
      budgetTriple := none }
  | .ok wasm_bytes =>
    let argLines :=
      match mock_args with
      | some (f :: rest) =>
        ["Would invoke function: " ++ f,
         "With args: " ++ toString rest]
      | some [] => []
      | none => []
    let stderrAll :=
      banner ++
        ["Loaded WASM file: " ++ toString wasm_bytes.length ++ " bytes",
         "Initialized Host with diagnostic level: Debug",
         "Full execution temporarily disabled due to build issues with the testutils feature."] ++
        argLines
    let events :=
      match env.getEvents [] with
      | .ok evs => evs
      | .error e => ["Failed to retrieve events: " ++ e]
    let logs :=
      ["Host Budget: " ++ env.budgetDebug [],
       "Execution: Skipped (Build Issue)"]
    { stdout :=
        [{ status := "success"
           error := none
           events := events
           logs := logs
           flamegraph := none
           optimization_report := none
           budget_usage := none }]
      stderrLines := stderrAll
      executed := none
      ledgerInfo := none
      budgetTriple := none }

/-- The whole driver (`main`, main.rs lines 84-298): input handling, mode
select, envelope decode, host configuration, and the rest of the
pipeline. -/
def run (env : Env) : Input → RunTrace
  | .ioError e => errTrace ("Failed to read stdin: " ++ e)
  | .badJson e => errTrace ("Invalid JSON: " ++ e)
  | .request req =>
    match req.wasm_path with
    | some wasm_path => run_local_wasm_replay env wasm_path req.mock_args
    | none =>
      match decodeEnvelope env req.envelope_xdr with
      | .error msg => errTrace msg
      | .ok envelope =>
        let li :=
          configureLedgerInfo env req.network req.timestamp req.ledger_sequence
        afterConfigure env req.ledger_entries req.profile
          req.enable_optimization_advisor envelope li

/-! ## Concrete instances for witnesses and counterexamples -/

/-- A sample operation. -/
def sampleOp : Operation := { body := "CreateAccount" }

/-- A sample plain (v1) envelope holding one operation. -/
def sampleEnvelope : TransactionEnvelope :=
  .Tx { tx := { operations := [sampleOp] } }

/-- A concrete oracle on which every external collaborator succeeds. -/
def okEnv : Env :=
  { base64Decode := fun _ => .ok [0]
    parseEnvelope := fun _ => .ok sampleEnvelope
    parseLedgerKey := fun b => .ok { raw := b }
    parseLedgerEntry := fun b => .ok { raw := b }
    sha256 := fun _ => [7]
    defaultLedgerInfo := { network_id := [], timestamp := 0, sequence_number := 0 }
    enginePanic := fun _ => none
    cpuConsumed := fun _ => some 100
    memConsumed := fun _ => none
    getEvents := fun _ => .ok ["event0"]
    budgetDebug := fun _ => "Budget"
    analyze := fun m => { raw := toString m.cpu_instructions }
    renderFlamegraph := fun _ => .ok "svg"
    readFile := fun _ => .ok [1, 2] }

/-- The oracle on which the engine aborts abnormally with payload
"boom". -/
def panicEnv : Env := { okEnv with enginePanic := fun _ => some "boom" }

/-- An oracle whose ledger-entry XDR parser rejects everything. -/
def badLedgerEnv : Env :=
  { okEnv with parseLedgerEntry := fun _ => .error "bad entry" }

/-- An oracle whose flamegraph renderer fails. -/
def badRenderEnv : Env :=
  { okEnv with renderFlamegraph := fun _ => .error "render fail" }

/-- The plain non-replay request used by concrete witnesses. -/
def baseReq : SimulationRequest :=
  { network := some "testnet"
    envelope_xdr := "AAAA"
    result_meta_xdr := "BBBB"
    ledger_entries := some [("k", "v")]
    timestamp := some 1738077842
    ledger_sequence := some 1234
    wasm_path := none
    mock_args := none
    profile := some false
    enable_optimization_advisor := false }

/-- A replay-mode request (wasm_path present) with both optional stages
requested. -/
def replayReq : SimulationRequest :=
  { baseReq with
    wasm_path := some "contract.wasm"
    mock_args := some ["hello", "arg1"]
    profile := some true
    enable_optimization_advisor := true }

/-! ## Structural lemmas about the pipeline -/

/-- Local replay always prints exactly one response. -/
lemma run_local_wasm_replay_stdout_len (env : Env) (wasm_path : String)
    (mock_args : Option (List String)) :
    (run_local_wasm_replay env wasm_path mock_args).stdout.length = 1 := by
  unfold run_local_wasm_replay
  cases env.readFile wasm_path <;> simp

/-- Local replay never reaches operation execution. -/
lemma run_local_wasm_replay_executed (env : Env) (wasm_path : String)
    (mock_args : Option (List String)) :
    (run_local_wasm_replay env wasm_path mock_args).executed = none := by
  unfold run_local_wasm_replay
  cases env.readFile wasm_path <;> simp

/-- The post-configuration stage always prints exactly one response. -/
lemma afterConfigure_stdout_len (env : Env)
    (le : Option (List (String × String))) (profile : Option Bool)
    (adv : Bool) (envelope : TransactionEnvelope) (li : LedgerInfo) :
    (afterConfigure env le profile adv envelope li).stdout.length = 1 := by
  unfold afterConfigure
  rcases hd : decodeLedgerEntries env (le.getD []) with e | n <;> simp [hd]
  rcases hp : env.enginePanic (extractOperations envelope) with _ | q <;>
    simp [hp]

/-- When the post-configuration stage records an intercepted engine fault,
its one response is the panic-shaped error response. -/
lemma afterConfigure_executed_error (env : Env)
    (le : Option (List (String × String))) (profile : Option Bool)
    (adv : Bool) (envelope : TransactionEnvelope) (li : LedgerInfo)
    (p : String)
    (h : (afterConfigure env le profile adv envelope li).executed =
      some (Except.error p)) :
    (afterConfigure env le profile adv envelope li).stdout =
      [panicResponse p] := by
  revert h
  unfold afterConfigure
  rcases hd : decodeLedgerEntries env (le.getD []) with e | n <;> simp [hd]
  rcases hp : env.enginePanic (extractOperations envelope) with _ | q <;>
    simp [hp]
  rintro rfl
  rfl

/-! ## Claims -/

/-- C1: For every request the driver emits exactly one response object on
standard output, and an abnormal engine termination during operation
execution is intercepted by the fault boundary and converted into the
error-shaped panic response instead of crashing: whenever the recorded
execution outcome is a fault with payload `p`, the single emitted response
is `panicResponse p`, whose status is "error". -/
theorem single_response_and_fault_boundary (env : Env) (input : Input) :
    (run env input).stdout.length = 1 ∧
      ∀ p, (run env input).executed = some (Except.error p) →
        (run env input).stdout = [panicResponse p] ∧
          (panicResponse p).status = "error" := by
  constructor
  · cases input with
    | ioError e => simp [run, errTrace]
    | badJson e => simp [run, errTrace]
    | request req =>
      rcases hw : req.wasm_path with _ | wp
      · rcases hd : decodeEnvelope env req.envelope_xdr with e | envl <;>
          simp [run, hw, hd, errTrace, afterConfigure_stdout_len]
      · simp [run, hw, run_local_wasm_replay_stdout_len]
  · intro p hp
    refine ⟨?_, rfl⟩
    cases input with
    | ioError e => simp [run, errTrace] at hp
    | badJson e => simp [run, errTrace] at hp
    | request req =>
      rcases hw : req.wasm_path with _ | wp
      · rcases hd : decodeEnvelope env req.envelope_xdr with e | envl
        · simp [run, hw, hd, errTrace] at hp
        · simp only [run, hw, hd] at hp ⊢
          exact afterConfigure_executed_error _ _ _ _ _ _ _ hp
      · rw [show run env (Input.request req) =
            run_local_wasm_replay env wp req.mock_args by simp [run, hw]] at hp
        rw [run_local_wasm_replay_executed] at hp
        cases hp

/-- Witness for C1 at a concrete faulting engine: one response is emitted
and it is the panic-shaped error response. -/
theorem single_response_and_fault_boundary_witness :
    (run panicEnv (Input.request baseReq)).stdout.length = 1 ∧
      (run panicEnv (Input.request baseReq)).stdout =
        [panicResponse "boom"] :=
  ⟨(single_response_and_fault_boundary panicEnv (Input.request baseReq)).1,
   ((single_response_and_fault_boundary panicEnv
      (Input.request baseReq)).2 "boom" rfl).1⟩

/-- C2 counterexample: the panic-intercepted error response has a
non-empty `logs` field (it carries the PANIC line, main.rs line 290),
contradicting the claim that every status="error" response has empty
logs. -/
theorem error_logs_counterexample :
    ∃ r ∈ (run panicEnv (Input.request baseReq)).stdout,
      r.status = "error" ∧ r.logs ≠ [] := by
  refine ⟨panicResponse "boom", ?_, rfl, by simp [panicResponse]⟩
  have h : (run panicEnv (Input.request baseReq)).stdout =
      [panicResponse "boom"] := rfl
  rw [h]
  exact List.mem_singleton.mpr rfl

/-- C2 as amended: every status="error" response has empty events, null
flamegraph, omitted optimization_report and omitted budget_usage, and its
logs are empty unless the error came from an intercepted panic: in that
case the run's recorded execution outcome is a fault whose payload p is
exactly what the logs (the one PANIC line) and the error message carry. -/
theorem error_response_fields (env : Env) (input : Input) :
    ∀ r ∈ (run env input).stdout, r.status = "error" →
      r.events = [] ∧ r.flamegraph = none ∧ r.optimization_report = none ∧
        r.budget_usage = none ∧
        (r.logs = [] ∨
          ∃ p, (run env input).executed = some (Except.error p) ∧
            r.logs = ["PANIC: " ++ p] ∧
            r.error = some ("Simulator panicked: " ++ p)) := by
  intro r hr hstatus
  cases input with
  | ioError e =>
    simp [run, errTrace] at hr
    subst hr
    simp [send_error]
  | badJson e =>
    simp [run, errTrace] at hr
    subst hr
    simp [send_error]
  | request req =>
    rcases hw : req.wasm_path with _ | wp
    · rcases hd : decodeEnvelope env req.envelope_xdr with e | envl
      · simp [run, hw, hd, errTrace] at hr
        subst hr
        simp [send_error]
      · simp only [run, hw, hd] at hr
        rcases hl : decodeLedgerEntries env (req.ledger_entries.getD [])
          with msg | n
        · simp [afterConfigure, hl] at hr
          subst hr
          simp [send_error]
        · rcases hp : env.enginePanic (extractOperations envl) with _ | q
          · simp [afterConfigure, hl, hp] at hr
            subst hr
            simp at hstatus
          · simp [afterConfigure, hl, hp] at hr
            subst hr
            refine ⟨rfl, rfl, rfl, rfl, Or.inr ⟨q, ?_, rfl, rfl⟩⟩
            simp only [run, hw, hd]
            simp [afterConfigure, hl, hp]
    · simp only [run, hw] at hr
      rcases hf : env.readFile wp with e | bytes
      · simp [run_local_wasm_replay, hf] at hr
        subst hr
        simp [send_error]
      · simp [run_local_wasm_replay, hf] at hr
        subst hr
        simp at hstatus

/-- Witness for the amended C2 at a concrete intercepted panic: the
error response's fields are as amended, with the PANIC log line tied to
the recorded fault payload. -/
theorem error_response_fields_witness :
    (panicResponse "boom").events = [] ∧
      (panicResponse "boom").flamegraph = none ∧
      (panicResponse "boom").optimization_report = none ∧
      (panicResponse "boom").budget_usage = none ∧
      ((panicResponse "boom").logs = [] ∨
        ∃ p, (run panicEnv (Input.request baseReq)).executed =
            some (Except.error p) ∧
          (panicResponse "boom").logs = ["PANIC: " ++ p] ∧
          (panicResponse "boom").error =
            some ("Simulator panicked: " ++ p)) :=
  error_response_fields panicEnv (Input.request baseReq)
    (panicResponse "boom") (by decide) rfl

/-- A ledger-preload error message names the failing record kind: it is
one of the four messages of main.rs lines 179-193, each naming LedgerKey
or LedgerEntry and the failing stage. -/
def namesLedgerRecordKind (msg : String) : Prop :=
  (∃ e, msg = "Failed to decode LedgerKey Base64: " ++ e) ∨
    (∃ e, msg = "Failed to parse LedgerKey XDR: " ++ e) ∨
    (∃ e, msg = "Failed to decode LedgerEntry Base64: " ++ e) ∨
    (∃ e, msg = "Failed to parse LedgerEntry XDR: " ++ e)

/-- Every error produced by decoding one ledger pair names the failing
record kind. -/
lemma decodeLedgerPair_error_names (env : Env) (kv : String × String)
    (msg : String) (h : decodeLedgerPair env kv = Except.error msg) :
    namesLedgerRecordKind msg := by
  unfold decodeLedgerPair at h
  rcases h1 : env.base64Decode kv.1 with e | b <;>
    simp only [h1, Except.error.injEq] at h
  · exact Or.inl ⟨e, h.symm⟩
  · rcases h2 : env.parseLedgerKey b with e | k <;>
      simp only [h2, Except.error.injEq] at h
    · exact Or.inr (Or.inl ⟨e, h.symm⟩)
    · rcases h3 : env.base64Decode kv.2 with e | b2 <;>
        simp only [h3, Except.error.injEq] at h
      · exact Or.inr (Or.inr (Or.inl ⟨e, h.symm⟩))
      · rcases h4 : env.parseLedgerEntry b2 with e | ent <;>
          simp only [h4, Except.error.injEq] at h
        · exact Or.inr (Or.inr (Or.inr ⟨e, h.symm⟩))
        · exact Except.noConfusion h

/-- If some pair of the ledger map fails to decode, the whole preload
fails, and its error message is the error of one failing pair. -/
lemma decodeLedgerEntries_error_of_mem (env : Env) :
    ∀ (l : List (String × String)) (kv : String × String), kv ∈ l →
      (∃ m, decodeLedgerPair env kv = Except.error m) →
      ∃ msg, decodeLedgerEntries env l = Except.error msg ∧
        ∃ kv2 ∈ l, decodeLedgerPair env kv2 = Except.error msg := by
  intro l
  induction l with
  | nil => intro kv h; cases h
  | cons hd tl ih =>
    intro kv hmem hfail
    rcases h1 : decodeLedgerPair env hd with e | u
    · exact ⟨e, by simp [decodeLedgerEntries, h1],
        hd, List.mem_cons_self _ _, h1⟩
    · have hkv_tl : kv ∈ tl := by
        rcases List.mem_cons.mp hmem with h | h
        · subst h
          obtain ⟨m, hm⟩ := hfail
          rw [h1] at hm
          cases hm
        · exact h
      obtain ⟨msg, hdec, kv2, hkv2, hp⟩ := ih kv hkv_tl hfail
      refine ⟨msg, ?_, kv2, List.mem_cons_of_mem _ hkv2, hp⟩
      simp [decodeLedgerEntries, h1, hdec]

/-- C3: For every non-replay request whose decoded envelope is well-formed
and whose ledger_entries mapping contains a pair that fails base64
decoding or XDR parsing, the one emitted response is the error response
whose message names the failing record kind, and operation execution is
never reached (all-or-nothing preload). -/
theorem ledger_preload_all_or_nothing (env : Env) (req : SimulationRequest)
    (envl : TransactionEnvelope) (l : List (String × String))
    (kv : String × String) (m : String)
    (hw : req.wasm_path = none)
    (hd : decodeEnvelope env req.envelope_xdr = Except.ok envl)
    (hle : req.ledger_entries = some l)
    (hkv : kv ∈ l)
    (hfail : decodeLedgerPair env kv = Except.error m) :
    ∃ msg, (run env (Input.request req)).stdout = [send_error msg] ∧
      namesLedgerRecordKind msg ∧
      (run env (Input.request req)).executed = none := by
  obtain ⟨msg, hdec, kv2, hkv2, hp2⟩ :=
    decodeLedgerEntries_error_of_mem env l kv hkv ⟨m, hfail⟩
  refine ⟨msg, ?_, decodeLedgerPair_error_names env kv2 msg hp2, ?_⟩ <;>
    simp [run, hw, hd, afterConfigure, hle, hdec]

/-- Witness for C3 at a concrete malformed ledger entry. -/
theorem ledger_preload_all_or_nothing_witness :
    ∃ msg,
      (run badLedgerEnv (Input.request baseReq)).stdout = [send_error msg] ∧
        namesLedgerRecordKind msg ∧
        (run badLedgerEnv (Input.request baseReq)).executed = none :=
  ledger_preload_all_or_nothing badLedgerEnv baseReq sampleEnvelope
    [("k", "v")] ("k", "v") ("Failed to parse LedgerEntry XDR: " ++ "bad entry")
    rfl rfl rfl (List.mem_singleton.mpr rfl) rfl

/-- The non-replay request with the optimization advisor enabled. -/
def advReq : SimulationRequest :=
  { baseReq with enable_optimization_advisor := true }

/-- The success response `run okEnv (Input.request advReq)` emits. -/
def advResp : SimulationResponse :=
  { status := "success"
    error := none
    events := ["event0"]
    logs := ["Host Initialized with Budget: Budget",
             "Loaded 1 Ledger Entries",
             "Processing operation 0: CreateAccount"]
    flamegraph := none
    optimization_report := some { raw := "100" }
    budget_usage :=
      some { cpu_instructions := 100, memory_bytes := 0, operations_count := 1 } }

/-- C4 counterexample: a local-replay request with
enable_optimization_advisor=true yields a status="success" response with
no optimization_report, so "=true ⇒ present whenever status=success" fails
as stated. -/
theorem advisor_replay_counterexample :
    replayReq.enable_optimization_advisor = true ∧
      ∃ r ∈ (run okEnv (Input.request replayReq)).stdout,
        r.status = "success" ∧ r.optimization_report = none := by
  decide

/-- C4 as amended: with the advisor disabled the report is always
omitted; with it enabled the report is present whenever the response is a
success and the request is not a local replay (wasm_path absent). -/
theorem advisor_gating (env : Env) (req : SimulationRequest) :
    ∀ r ∈ (run env (Input.request req)).stdout,
      (req.enable_optimization_advisor = false →
        r.optimization_report = none) ∧
      (req.enable_optimization_advisor = true → req.wasm_path = none →
        r.status = "success" → r.optimization_report ≠ none) := by
  intro r hr
  rcases hw : req.wasm_path with _ | wp
  · rcases hd : decodeEnvelope env req.envelope_xdr with e | envl
    · simp [run, hw, hd, errTrace] at hr
      subst hr
      exact ⟨fun _ => rfl, fun _ _ h3 => by simp [send_error] at h3⟩
    · simp only [run, hw, hd] at hr
      rcases hl : decodeLedgerEntries env (req.ledger_entries.getD [])
        with msg | n
      · simp [afterConfigure, hl] at hr
        subst hr
        exact ⟨fun _ => rfl, fun _ _ h3 => by simp [send_error] at h3⟩
      · rcases hp : env.enginePanic (extractOperations envl) with _ | q
        · simp [afterConfigure, hl, hp] at hr
          subst hr
          refine ⟨fun h1 => by simp [h1], fun h1 _ _ => by simp [h1]⟩
        · simp [afterConfigure, hl, hp] at hr
          subst hr
          exact ⟨fun _ => rfl, fun _ _ h3 => by simp [panicResponse] at h3⟩
  · simp only [run, hw] at hr
    rcases hf : env.readFile wp with e | bytes <;>
      simp [run_local_wasm_replay, hf] at hr <;> subst hr
    · exact ⟨fun _ => rfl, fun _ h2 _ => by cases h2⟩
    · exact ⟨fun _ => rfl, fun _ h2 _ => by cases h2⟩

/-- Witness for the amended C4: with the advisor enabled on a non-replay
success, the report is present. -/
theorem advisor_gating_witness : advResp.optimization_report ≠ none :=
  ((advisor_gating okEnv advReq advResp (by decide)).2 rfl rfl rfl)

/-- Decoding one ledger pair does not depend on the engine-fault oracle. -/
lemma decodeLedgerPair_update_enginePanic (env : Env)
    (f : List Operation → Option String) (kv : String × String) :
    decodeLedgerPair { env with enginePanic := f } kv =
      decodeLedgerPair env kv := rfl

/-- The ledger preload does not depend on the engine-fault oracle. -/
lemma decodeLedgerEntries_update_enginePanic (env : Env)
    (f : List Operation → Option String) :
    ∀ l, decodeLedgerEntries { env with enginePanic := f } l =
      decodeLedgerEntries env l := by
  intro l
  induction l with
  | nil => rfl
  | cons hd tl ih =>
    simp [decodeLedgerEntries, decodeLedgerPair_update_enginePanic, ih]

/-- Once the ledger preload succeeds, the budget extractor records the
canonical triple: consumed CPU and memory defaulting to zero when the
host cannot report them, and the attempted operation count — whatever the
execution outcome. -/
lemma afterConfigure_budgetTriple (env : Env)
    (le : Option (List (String × String))) (profile : Option Bool)
    (adv : Bool) (envl : TransactionEnvelope) (li : LedgerInfo) (n : Nat)
    (hl : decodeLedgerEntries env (le.getD []) = Except.ok n) :
    (afterConfigure env le profile adv envl li).budgetTriple =
      some { cpu_instructions := (env.cpuConsumed (extractOperations envl)).getD 0
             memory_bytes := (env.memConsumed (extractOperations envl)).getD 0
             operations_count := (extractOperations envl).length } := by
  rcases hp : env.enginePanic (extractOperations envl) with _ | q <;>
    simp [afterConfigure, hl, hp]

/-- C5 counterexample: after a degraded local replay no budget triple is
computed at all (and the response omits budget_usage), while the same
oracle's non-replay run computes the triple — so the triple is not "read
the same way" after every execution including degraded-replay. -/
theorem budget_triple_replay_counterexample :
    (run okEnv (Input.request replayReq)).budgetTriple = none ∧
      (∀ r ∈ (run okEnv (Input.request replayReq)).stdout,
        r.budget_usage = none) ∧
      (run okEnv (Input.request baseReq)).budgetTriple =
        some { cpu_instructions := 100, memory_bytes := 0,
               operations_count := 1 } := by
  decide

/-- C5 as amended: for every non-replay request that reaches execution,
the budget triple is computed identically regardless of the execution
outcome (successful or faulted): consumed CPU instructions and memory
bytes each default to zero when the host cannot report them, and the
operation count is the number of operations attempted. Degraded replay
computes no triple. -/
theorem budget_triple_uniform (env : Env)
    (f : List Operation → Option String) (req : SimulationRequest)
    (envl : TransactionEnvelope) (n : Nat)
    (hw : req.wasm_path = none)
    (hd : decodeEnvelope env req.envelope_xdr = Except.ok envl)
    (hl : decodeLedgerEntries env (req.ledger_entries.getD []) =
      Except.ok n) :
    (run env (Input.request req)).budgetTriple =
        some { cpu_instructions :=
                 (env.cpuConsumed (extractOperations envl)).getD 0
               memory_bytes :=
                 (env.memConsumed (extractOperations envl)).getD 0
               operations_count := (extractOperations envl).length } ∧
      (run { env with enginePanic := f } (Input.request req)).budgetTriple =
        (run env (Input.request req)).budgetTriple := by
  have hd2 : decodeEnvelope { env with enginePanic := f }
      req.envelope_xdr = Except.ok envl := hd
  have hl2 : decodeLedgerEntries { env with enginePanic := f }
      (req.ledger_entries.getD []) = Except.ok n := by
    rw [decodeLedgerEntries_update_enginePanic]
    exact hl
  have h1 : (run env (Input.request req)).budgetTriple =
      some { cpu_instructions :=
               (env.cpuConsumed (extractOperations envl)).getD 0
             memory_bytes :=
               (env.memConsumed (extractOperations envl)).getD 0
             operations_count := (extractOperations envl).length } := by
    simp only [run, hw, hd]
    exact afterConfigure_budgetTriple env req.ledger_entries req.profile
      req.enable_optimization_advisor envl _ n hl
  have h2 : (run { env with enginePanic := f }
      (Input.request req)).budgetTriple =
      some { cpu_instructions :=
               (env.cpuConsumed (extractOperations envl)).getD 0
             memory_bytes :=
               (env.memConsumed (extractOperations envl)).getD 0
             operations_count := (extractOperations envl).length } := by
    simp only [run, hw, hd2]
    exact afterConfigure_budgetTriple { env with enginePanic := f }
      req.ledger_entries req.profile req.enable_optimization_advisor
      envl _ n hl2
  exact ⟨h1, by rw [h1, h2]⟩

/-- Witness for the amended C5: the triple of the non-replay run is the
canonical one and is unchanged when the engine is made to fault. -/
theorem budget_triple_uniform_witness :
    (run okEnv (Input.request baseReq)).budgetTriple =
        some { cpu_instructions := 100, memory_bytes := 0,
               operations_count := 1 } ∧
      (run { okEnv with enginePanic := fun _ => some "boom" }
          (Input.request baseReq)).budgetTriple =
        (run okEnv (Input.request baseReq)).budgetTriple :=
  budget_triple_uniform okEnv (fun _ => some "boom") baseReq
    sampleEnvelope 1 rfl rfl rfl

/-- C6: Operation extraction is uniform across the three envelope
variants: plain and legacy envelopes yield the contained transaction's
operations, and a fee-bump envelope yields exactly what its inner (v1)
transaction envelope yields — its inner transaction's operations. -/
theorem envelope_extraction_uniform (tx_v1 : TransactionV1Envelope)
    (tx_v0 : TransactionV0Envelope) (inner : TransactionV1Envelope) :
    extractOperations (TransactionEnvelope.Tx tx_v1) =
        tx_v1.tx.operations ∧
      extractOperations (TransactionEnvelope.TxV0 tx_v0) =
        tx_v0.tx.operations ∧
      extractOperations (TransactionEnvelope.TxFeeBump
          { tx := { inner_tx := FeeBumpTransactionInnerTx.Tx inner } }) =
        extractOperations (TransactionEnvelope.Tx inner) ∧
      extractOperations (TransactionEnvelope.TxFeeBump
          { tx := { inner_tx := FeeBumpTransactionInnerTx.Tx inner } }) =
        inner.tx.operations :=
  ⟨rfl, rfl, rfl, rfl⟩

/-- C7: profile=false ⇒ the flamegraph is omitted from the response;
profile=true on a non-replay request reaching a non-faulted execution
with a working renderer (successful, non-empty output) ⇒ the response is
a success carrying that non-empty flamegraph; and a renderer failure is
non-fatal ⇒ the flamegraph is omitted, the status remains "success", and
the failure is logged to the diagnostic (stderr) channel. -/
theorem flamegraph_gating :
    (∀ (env : Env) (req : SimulationRequest),
        ∀ r ∈ (run env (Input.request req)).stdout,
          req.profile.getD false = false → r.flamegraph = none) ∧
      (∀ (env : Env) (req : SimulationRequest)
          (envl : TransactionEnvelope) (n : Nat) (svg : String),
        req.wasm_path = none →
        decodeEnvelope env req.envelope_xdr = Except.ok envl →
        decodeLedgerEntries env (req.ledger_entries.getD []) =
          Except.ok n →
        env.enginePanic (extractOperations envl) = none →
        req.profile = some true →
        env.renderFlamegraph
            (foldedData ((env.cpuConsumed (extractOperations envl)).getD 0)
              ((env.memConsumed (extractOperations envl)).getD 0)) =
          Except.ok svg →
        svg ≠ "" →
        ∀ r ∈ (run env (Input.request req)).stdout,
          r.status = "success" ∧ r.flamegraph = some svg ∧ svg ≠ "") ∧
      (∀ (env : Env) (req : SimulationRequest)
          (envl : TransactionEnvelope) (n : Nat) (e : String),
        req.wasm_path = none →
        decodeEnvelope env req.envelope_xdr = Except.ok envl →
        decodeLedgerEntries env (req.ledger_entries.getD []) =
          Except.ok n →
        env.enginePanic (extractOperations envl) = none →
        req.profile = some true →
        env.renderFlamegraph
            (foldedData ((env.cpuConsumed (extractOperations envl)).getD 0)
              ((env.memConsumed (extractOperations envl)).getD 0)) =
          Except.error e →
        (∀ r ∈ (run env (Input.request req)).stdout,
          r.status = "success" ∧ r.flamegraph = none) ∧
          ("Failed to generate flamegraph: " ++ e) ∈
            (run env (Input.request req)).stderrLines) := by
  refine ⟨?_, ?_, ?_⟩
  · intro env req r hr hprof
    rcases hw : req.wasm_path with _ | wp
    · rcases hd : decodeEnvelope env req.envelope_xdr with e | envl
      · simp [run, hw, hd, errTrace] at hr
        subst hr
        rfl
      · simp only [run, hw, hd] at hr
        rcases hl : decodeLedgerEntries env (req.ledger_entries.getD [])
          with msg | n
        · simp [afterConfigure, hl] at hr
          subst hr
          rfl
        · rcases hp : env.enginePanic (extractOperations envl) with _ | q
          · simp [afterConfigure, hl, hp] at hr
            subst hr
            simp [hprof]
          · simp [afterConfigure, hl, hp] at hr
            subst hr
            rfl
    · simp only [run, hw] at hr
      rcases hf : env.readFile wp with e | bytes <;>
        simp [run_local_wasm_replay, hf] at hr <;> subst hr <;> rfl
  · intro env req envl n svg hw hd hl hp hprof hrender hne r hr
    simp only [run, hw, hd] at hr
    simp [afterConfigure, hl, hp, hprof, hrender] at hr
    subst hr
    exact ⟨rfl, rfl, hne⟩
  · intro env req envl n e hw hd hl hp hprof hrender
    constructor
    · intro r hr
      simp only [run, hw, hd] at hr
      simp [afterConfigure, hl, hp, hprof, hrender] at hr
      subst hr
      exact ⟨rfl, rfl⟩
    · simp only [run, hw, hd]
      simp [afterConfigure, hl, hp, hprof, hrender]

/-- The non-replay request with profiling enabled. -/
def profReq : SimulationRequest := { baseReq with profile := some true }

/-- The success response `run okEnv (Input.request profReq)` emits. -/
def profResp : SimulationResponse :=
  { status := "success"
    error := none
    events := ["event0"]
    logs := ["Host Initialized with Budget: Budget",
             "Loaded 1 Ledger Entries",
             "Processing operation 0: CreateAccount"]
    flamegraph := some "svg"
    optimization_report := none
    budget_usage :=
      some { cpu_instructions := 100, memory_bytes := 0, operations_count := 1 } }

/-- Witness for C7 on a concrete working renderer: the response is a
success carrying the non-empty flamegraph. -/
theorem flamegraph_gating_witness :
    profResp.status = "success" ∧ profResp.flamegraph = some "svg" ∧
      "svg" ≠ "" :=
  flamegraph_gating.2.1 okEnv profReq sampleEnvelope 1 "svg"
    rfl rfl rfl rfl rfl rfl (by decide) profResp (by decide)

/-- C8: whenever wasm_path is present the response carries neither an
optimization_report nor a flamegraph, whatever the other flags say. -/
theorem replay_no_report_or_flamegraph (env : Env)
    (req : SimulationRequest) (wp : String)
    (hw : req.wasm_path = some wp) :
    ∀ r ∈ (run env (Input.request req)).stdout,
      r.optimization_report = none ∧ r.flamegraph = none := by
  intro r hr
  simp only [run, hw] at hr
  rcases hf : env.readFile wp with e | bytes <;>
    simp [run_local_wasm_replay, hf] at hr <;> subst hr <;> exact ⟨rfl, rfl⟩

/-- The success response `run okEnv (Input.request replayReq)` emits
(replayReq has profile and the advisor both set to true). -/
def replayResp : SimulationResponse :=
  { status := "success"
    error := none
    events := ["event0"]
    logs := ["Host Budget: Budget", "Execution: Skipped (Build Issue)"]
    flamegraph := none
    optimization_report := none
    budget_usage := none }

/-- Witness for C8 at a concrete replay request with both optional stages
requested: neither appears. -/
theorem replay_no_report_or_flamegraph_witness :
    replayResp.optimization_report = none ∧ replayResp.flamegraph = none :=
  replay_no_report_or_flamegraph okEnv replayReq "contract.wasm" rfl
    replayResp (by decide)

/-- The ledger preload succeeds exactly when every pair of the map
decodes. -/
lemma decodeLedgerEntries_ok_iff (env : Env) :
    ∀ l, (∃ n, decodeLedgerEntries env l = Except.ok n) ↔
      ∀ kv ∈ l, ∃ u, decodeLedgerPair env kv = Except.ok u := by
  intro l
  induction l with
  | nil => simp [decodeLedgerEntries]
  | cons hd tl ih =>
    constructor
    · rintro ⟨n, hn⟩ kv hmem
      rcases h1 : decodeLedgerPair env hd with e | u
      · simp only [decodeLedgerEntries, h1] at hn
        cases hn
      · simp only [decodeLedgerEntries, h1] at hn
        rcases h2 : decodeLedgerEntries env tl with e | m
        · rw [h2] at hn
          cases hn
        · rcases List.mem_cons.mp hmem with h | h
          · subst h
            exact ⟨u, h1⟩
          · exact (ih.mp ⟨m, h2⟩) kv h
    · intro hall
      obtain ⟨u, h1⟩ := hall hd (List.mem_cons_self hd tl)
      obtain ⟨m, h2⟩ := ih.mpr (fun kv h => hall kv (List.mem_cons_of_mem _ h))
      exact ⟨m + 1, by simp [decodeLedgerEntries, h1, h2]⟩

/-- C9: the pipeline is deterministic. Identical request bytes decode to
the same ledger map up to the Rust HashMap's unspecified iteration order,
so the two invocations are embedded as runs over two permuted association
lists; with the engine oracle fixed (no engine nondeterminism), the two
emitted responses carry the same budget_usage and the same events. -/
theorem deterministic_replay (env : Env) (req : SimulationRequest)
    (l₁ l₂ : List (String × String)) (hperm : l₁.Perm l₂) :
    ∀ r₁ ∈ (run env (Input.request
        { req with ledger_entries := some l₁ })).stdout,
      ∀ r₂ ∈ (run env (Input.request
          { req with ledger_entries := some l₂ })).stdout,
        r₁.budget_usage = r₂.budget_usage ∧ r₁.events = r₂.events := by
  intro r₁ hr₁ r₂ hr₂
  rcases hw : req.wasm_path with _ | wp
  · rcases hd : decodeEnvelope env req.envelope_xdr with e | envl
    · simp [run, hw, hd, errTrace] at hr₁ hr₂
      subst hr₁
      subst hr₂
      exact ⟨rfl, rfl⟩
    · rcases h1 : decodeLedgerEntries env l₁ with m₁ | n₁
      · have h2 : ¬ ∃ n, decodeLedgerEntries env l₂ = Except.ok n := by
          rintro ⟨n, hn⟩
          have hall := (decodeLedgerEntries_ok_iff env l₂).mp ⟨n, hn⟩
          obtain ⟨n', hn'⟩ := (decodeLedgerEntries_ok_iff env l₁).mpr
            (fun kv h => hall kv (hperm.mem_iff.mp h))
          rw [h1] at hn'
          cases hn'
        rcases h2' : decodeLedgerEntries env l₂ with m₂ | n₂
        · simp only [run, hw, hd] at hr₁ hr₂
          simp [afterConfigure, h1] at hr₁
          simp [afterConfigure, h2'] at hr₂
          subst hr₁
          subst hr₂
          exact ⟨rfl, rfl⟩
        · exact absurd ⟨n₂, h2'⟩ h2
      · have hall := (decodeLedgerEntries_ok_iff env l₁).mp ⟨n₁, h1⟩
        obtain ⟨n₂, h2⟩ := (decodeLedgerEntries_ok_iff env l₂).mpr
          (fun kv h => hall kv (hperm.mem_iff.mpr h))
        simp only [run, hw, hd] at hr₁ hr₂
        rcases hp : env.enginePanic (extractOperations envl) with _ | q
        · simp [afterConfigure, h1, hp] at hr₁
          simp [afterConfigure, h2, hp] at hr₂
          subst hr₁
          subst hr₂
          exact ⟨rfl, rfl⟩
        · simp [afterConfigure, h1, hp] at hr₁
          simp [afterConfigure, h2, hp] at hr₂
          subst hr₁
          subst hr₂
          exact ⟨rfl, rfl⟩
  · simp only [run, hw] at hr₁ hr₂
    rcases hf : env.readFile wp with e | bytes <;>
      simp [run_local_wasm_replay, hf] at hr₁ hr₂ <;>
      subst hr₁ <;> subst hr₂ <;> exact ⟨rfl, rfl⟩

/-- The success response emitted for `baseReq` with a two-entry ledger
map, in either iteration order. -/
def detResp : SimulationResponse :=
  { status := "success"
    error := none
    events := ["event0"]
    logs := ["Host Initialized with Budget: Budget",
             "Loaded 2 Ledger Entries",
             "Processing operation 0: CreateAccount"]
    flamegraph := none
    optimization_report := none
    budget_usage :=
      some { cpu_instructions := 100, memory_bytes := 0, operations_count := 1 } }

/-- Witness for C9 at a concrete two-entry map in both iteration
orders. -/
theorem deterministic_replay_witness :
    detResp.budget_usage = detResp.budget_usage ∧
      detResp.events = detResp.events :=
  deterministic_replay okEnv baseReq
    [("k1", "v1"), ("k2", "v2")] [("k2", "v2"), ("k1", "v1")]
    (by decide) detResp (by decide) detResp (by decide)

/-- Every path of the post-configuration stage records the configured
ledger info. -/
lemma afterConfigure_ledgerInfo (env : Env)
    (le : Option (List (String × String))) (profile : Option Bool)
    (adv : Bool) (envl : TransactionEnvelope) (li : LedgerInfo) :
    (afterConfigure env le profile adv envl li).ledgerInfo = some li := by
  rcases hd : decodeLedgerEntries env (le.getD []) with m | n
  · simp [afterConfigure, hd]
  · rcases hp : env.enginePanic (extractOperations envl) with _ | q <;>
      simp [afterConfigure, hd, hp]

/-- A supplied timestamp override always lands in the configured ledger
info as its u64 reinterpretation. -/
lemma configureLedgerInfo_timestamp (env : Env) (nw : Option String)
    (sq : Option Nat) (t : Int) :
    (configureLedgerInfo env nw (some t) sq).timestamp = i64AsU64 t := by
  unfold configureLedgerInfo
  rcases nw with _ | nm
  · rcases sq with _ | s <;> simp
  · rcases hnp : network_passphrase nm with _ | p <;>
      rcases sq with _ | s <;> simp [hnp]

/-- Two timestamp overrides with the same u64 reinterpretation configure
the same ledger info. -/
lemma configureLedgerInfo_timestamp_congr (env : Env) (nw : Option String)
    (sq : Option Nat) (t₁ t₂ : Int) (h : i64AsU64 t₁ = i64AsU64 t₂) :
    configureLedgerInfo env nw (some t₁) sq =
      configureLedgerInfo env nw (some t₂) sq := by
  unfold configureLedgerInfo
  rcases nw with _ | nm
  · rcases sq with _ | s <;> simp [h]
  · rcases hnp : network_passphrase nm with _ | p <;>
      rcases sq with _ | s <;> simp [hnp, h]

/-- Adding 2^64 to a timestamp does not change its u64
reinterpretation. -/
lemma i64AsU64_two_pow_add (t : Int) :
    i64AsU64 ((2 ^ 64 : Int) + t) = i64AsU64 t := by
  unfold i64AsU64
  congr 1
  have h : (2 ^ 64 : Int) + t = t + 2 ^ 64 * 1 := by ring
  rw [h, Int.add_mul_emod_self_left]

/-- On a negative i64, the u64 reinterpretation is the two's-complement
value 2^64 + t. -/
lemma i64AsU64_neg (t : Int) (h0 : -(2 ^ 63) ≤ t) (h1 : t < 0) :
    i64AsU64 t = ((2 ^ 64 : Int) + t).toNat := by
  unfold i64AsU64
  have e64 : (2 ^ 64 : Int) = 18446744073709551616 := by norm_num
  have e63 : (2 ^ 63 : Int) = 9223372036854775808 := by norm_num
  rw [e64]
  rw [e63] at h0
  have heq : t % 18446744073709551616 = 18446744073709551616 + t := by
    omega
  rw [heq]

/-- C10: a negative timestamp override t is not rejected: the run
proceeds, the host ledger timestamp is silently set to t interpreted
modulo 2^64 (its two's-complement reinterpretation 2^64 + t), and the
whole observable trace equals that of the same request carrying the
non-negative value 2^64 + t. -/
theorem negative_timestamp_wraps (env : Env) (req : SimulationRequest)
    (t : Int) (envl : TransactionEnvelope)
    (hw : req.wasm_path = none)
    (hts : req.timestamp = some t)
    (hneg : t < 0) (hrange : -(2 ^ 63) ≤ t)
    (hd : decodeEnvelope env req.envelope_xdr = Except.ok envl) :
    (∃ li, (run env (Input.request req)).ledgerInfo = some li ∧
        li.timestamp = ((2 ^ 64 : Int) + t).toNat) ∧
      run env (Input.request req) =
        run env (Input.request
          { req with timestamp := some ((2 ^ 64 : Int) + t) }) := by
  constructor
  · refine ⟨configureLedgerInfo env req.network req.timestamp
      req.ledger_sequence, ?_, ?_⟩
    · simp only [run, hw, hd]
      exact afterConfigure_ledgerInfo env req.ledger_entries req.profile
        req.enable_optimization_advisor envl _
    · rw [hts, configureLedgerInfo_timestamp]
      exact i64AsU64_neg t hrange hneg
  · have hcfg : configureLedgerInfo env req.network
        (some ((2 ^ 64 : Int) + t)) req.ledger_sequence =
        configureLedgerInfo env req.network req.timestamp
          req.ledger_sequence := by
      rw [hts]
      exact (configureLedgerInfo_timestamp_congr env req.network
        req.ledger_sequence t _ (i64AsU64_two_pow_add t).symm).symm
    have hrun1 : run env (Input.request req) =
        afterConfigure env req.ledger_entries req.profile
          req.enable_optimization_advisor envl
          (configureLedgerInfo env req.network req.timestamp
            req.ledger_sequence) := by
      simp only [run, hw, hd]
    have hrun2 : run env (Input.request
        { req with timestamp := some ((2 ^ 64 : Int) + t) }) =
        afterConfigure env req.ledger_entries req.profile
          req.enable_optimization_advisor envl
          (configureLedgerInfo env req.network
            (some ((2 ^ 64 : Int) + t)) req.ledger_sequence) := by
      simp only [run, hw, hd]
    rw [hrun1, hrun2, hcfg]

/-- The request carrying a negative timestamp. -/
def negReq : SimulationRequest := { baseReq with timestamp := some (-5) }

/-- Witness for C10 at timestamp -5: the configured ledger timestamp is
2^64 - 5, and the trace equals the non-negative equivalent's. -/
theorem negative_timestamp_wraps_witness :
    (∃ li, (run okEnv (Input.request negReq)).ledgerInfo = some li ∧
        li.timestamp = ((2 ^ 64 : Int) + (-5)).toNat) ∧
      run okEnv (Input.request negReq) =
        run okEnv (Input.request
          { negReq with timestamp := some ((2 ^ 64 : Int) + (-5)) }) :=
  negative_timestamp_wraps okEnv negReq (-5) sampleEnvelope
    rfl rfl (by norm_num) (by norm_num) rfl

end Hintents
